import Mathlib

/-!
Verification of the GitHub driver of the ossdotnow project directory
(`packages/api/src/driver/github.ts`), shallowly embedded in Lean 4.

The embedding models:
* `parseRepoIdentifier` — the `identifier.split('/')` parsing with its
  falsy-segment check;
* `verifyOwnership` — the ownership-verification state machine: identity
  and repository resolution, the direct-owner / organization authorization
  chain, the failing claim record on denial, the conditional ownership
  update (`where id = ? and ownerId is null ... returning`) and the
  success claim record;
* `getUserPullRequests` — the cursor-paginated GraphQL fetch with its
  default limit/state handling, per-state post-filter and final
  `slice(0, limit)` cap.

Provider calls are modelled by an environment (`GhEnv`) recording the
result each octokit call would return during the attempt; database state
is an explicit `DB` value threaded through the function; the function
additionally returns the ordered trace of provider calls and database
operations it performed (`List Event`), so that ordering and
"no lookup performed" properties can be stated.
-/

deriving instance DecidableEq for Except

namespace GithubDriver

/-- js-style `str.split('/')` on the underlying character list:
`[] ↦ [[]]`, a leading `'/'` opens a new empty segment, any other
character is prepended to the first segment of the split of the rest.
Mirrors ECMAScript `String.prototype.split` with a single-character
separator (`"".split('/') = [""]`, `"a//b".split('/') = ["a","","b"]`). -/
def splitSlash : List Char → List (List Char)
  | [] => [[]]
  | c :: cs =>
    if c = '/' then [] :: splitSlash cs
    else
      match splitSlash cs with
      | [] => [[c]]
      | t :: ts => (c :: t) :: ts

/-- Error taxonomy of the driver, as raised by the TypeScript code:
`invalidIdentifier` is the plain `Error` thrown by `parseRepoIdentifier`;
`providerError` is a propagated octokit failure; `forbidden` and
`conflict` are the two `TRPCError`s of `verifyOwnership`; `notFound` and
`internalError` are the `TRPCError`s of `getUserPullRequests`;
`runtimeTypeError` models the TypeError raised at run time when
`ctx.session!.userId` is evaluated with an absent session. -/
inductive VError
  | invalidIdentifier (msg : String)
  | providerError (msg : String)
  | forbidden (msg : String)
  | conflict (msg : String)
  | notFound (msg : String)
  | internalError (msg : String)
  | runtimeTypeError
deriving DecidableEq, Repr

/-- Message of the `Error` thrown on a malformed repository identifier. -/
def invalidRepoMsg : String := "Invalid repository format. Use: username/repository"

/-- `parseRepoIdentifier(identifier)`: split on `'/'`, destructure the
first two components (`undefined` and `""` both fail the `!owner || !repo`
falsy check, so a missing component is represented by `[]`), throw on a
falsy component, else return them. -/
def parseRepoIdentifier (identifier : String) : Except VError (String × String) :=
  let parts := splitSlash identifier.data
  let owner := String.mk (parts.getD 0 [])
  let repo := String.mk (parts.getD 1 [])
  if owner = "" ∨ repo = "" then
    Except.error (VError.invalidIdentifier invalidRepoMsg)
  else
    Except.ok (owner, repo)

theorem splitSlash_ne_nil (l : List Char) : splitSlash l ≠ [] := by
  induction l with
  | nil => simp [splitSlash]
  | cons c cs ih =>
    simp only [splitSlash]
    split
    · simp
    · cases h : splitSlash cs with
      | nil => exact absurd h ih
      | cons t ts => simp

theorem splitSlash_no_slash (l : List Char) (h : '/' ∉ l) : splitSlash l = [l] := by
  induction l with
  | nil => rfl
  | cons c cs ih =>
    simp only [List.mem_cons, not_or] at h
    have hc : ¬c = '/' := fun hc => h.1 hc.symm
    simp only [splitSlash, if_neg hc, ih h.2]

theorem splitSlash_append (o rest : List Char) (h : '/' ∉ o) :
    splitSlash (o ++ '/' :: rest) = o :: splitSlash rest := by
  induction o with
  | nil => simp [splitSlash]
  | cons c cs ih =>
    simp only [List.mem_cons, not_or] at h
    have hc : ¬c = '/' := fun hc => h.1 hc.symm
    simp only [List.cons_append, splitSlash, if_neg hc, List.append_eq, ih h.2]

theorem mk_eq_empty_iff (l : List Char) : String.mk l = "" ↔ l = [] := by
  rw [String.ext_iff]

theorem mk_ne_empty_iff (l : List Char) : String.mk l ≠ "" ↔ l ≠ [] :=
  not_congr (mk_eq_empty_iff l)

/-- Result of `octokit.rest.users.getAuthenticated`, normalized by
`getCurrentUser` (`id: data.id.toString(), username: data.login`). -/
structure GhUser where
  id : String
  username : String
deriving DecidableEq, Repr

/-- `data.owner` of an octokit repository response: `login` and `type`
(the GitHub API reports `type` as the string `"User"` or
`"Organization"`; the code compares it against the literal
`'Organization'`). -/
structure RepoOwner where
  login : String
  type : String
deriving DecidableEq, Repr

/-- Repository snapshot as normalized by `getRepo`. -/
structure RepoData where
  id : Nat
  name : String
  description : Option String
  url : String
  isPrivate : Bool
  owner : RepoOwner
deriving DecidableEq, Repr

/-- `data` of `octokit.rest.orgs.getMembershipForUser`: the code reads
`membership.role` and `membership.state`. -/
structure OrgMembership where
  role : String
  state : String
deriving DecidableEq, Repr

/-- Provider environment for one `verifyOwnership` attempt: the result
each octokit call returns if performed during the attempt
(`Except.error` models the promise rejecting, i.e. the call throwing).
Each call is performed at most once per attempt with fixed arguments,
so one field per endpoint suffices. -/
structure GhEnv where
  currentUser : Except String GhUser
  repoResult : Except String RepoData
  collaboratorPermission : Except String String
  orgMembership : Except String OrgMembership
deriving DecidableEq, Repr

/-- The `project` row fields `verifyOwnership` touches: `id`, `ownerId`
(nullable) and `updatedAt` (modelled as a `Nat` timestamp). -/
structure Project where
  id : String
  ownerId : Option String
  updatedAt : Nat
deriving DecidableEq, Repr

/-- A `projectClaim` row as inserted by `verifyOwnership`: the column
values plus the `verificationDetails` JSON fields (fields absent from a
given insert are `none`). -/
structure ClaimRow where
  projectId : String
  userId : String
  success : Bool
  verificationMethod : String
  verifiedAs : String
  repoOwner : String
  repoOwnerType : String
  reason : Option String
  ownershipType : Option String
  repositoryUrl : Option String
  errorReason : Option String
deriving DecidableEq, Repr

/-- Database state: the `project` table and the append-only
`projectClaim` table. -/
structure DB where
  projects : List Project
  claims : List ClaimRow
deriving DecidableEq, Repr

/-- Trace events: one per provider call performed (whether it succeeded
or threw) and one per database statement executed, in program order. -/
inductive Event
  | callGetCurrentUser
  | callGetRepo
  | callGetCollaboratorPermission
  | callGetOrgMembership
  | dbUpdateOwner (projectId : String) (newOwner : Option String) (returnedCount : Nat)
  | dbInsertClaim (row : ClaimRow)
deriving DecidableEq, Repr

/-- `e` is a provider call, not a database operation. -/
def Event.isProviderCall : Event → Bool
  | callGetCurrentUser | callGetRepo | callGetCollaboratorPermission
  | callGetOrgMembership => true
  | _ => false

/-- The drizzle statement
`update(project).set({ ownerId, updatedAt }).where(and(eq(project.id, pid), isNull(project.ownerId))).returning()`:
returns the new table contents and the list of updated (returned) rows. -/
def updateProjectWhereUnowned (projects : List Project) (pid : String)
    (newOwner : Option String) (now : Nat) : List Project × List Project :=
  (projects.map fun p =>
     if p.id = pid ∧ p.ownerId = none then
       { p with ownerId := newOwner, updatedAt := now }
     else p,
   (projects.filter fun p => decide (p.id = pid ∧ p.ownerId = none)).map
     fun p => { p with ownerId := newOwner, updatedAt := now })

/-- The authorization chain of `verifyOwnership` (its `if / else if`
ladder with the two nested `try/catch` blocks), returning the final
`(isOwner, ownershipType)` pair and the provider calls it performs.
A thrown call still produced a call event. Note: when the
collaborator-permission lookup succeeds with a non-`admin` level, no
org-membership lookup happens — the `catch` fallback only runs when the
permission lookup itself throws. -/
def ownershipDecision (env : GhEnv) (currentUser : GhUser) (repoData : RepoData) :
    Bool × String × List Event :=
  if repoData.owner.login = currentUser.username then
    (true, "repository owner", [])
  else if repoData.owner.type = "Organization" then
    match env.collaboratorPermission with
    | Except.ok perm =>
      if perm = "admin" then
        match env.orgMembership with
        | Except.ok m =>
          if m.role = "admin" ∧ m.state = "active" then
            (true, "organization owner",
             [Event.callGetCollaboratorPermission, Event.callGetOrgMembership])
          else
            (false, "",
             [Event.callGetCollaboratorPermission, Event.callGetOrgMembership])
        | Except.error _ =>
          (true, "repository admin",
           [Event.callGetCollaboratorPermission, Event.callGetOrgMembership])
      else (false, "", [Event.callGetCollaboratorPermission])
    | Except.error _ =>
      match env.orgMembership with
      | Except.ok m =>
        if m.role = "admin" ∧ m.state = "active" then
          (true, "organization owner",
           [Event.callGetCollaboratorPermission, Event.callGetOrgMembership])
        else
          (false, "",
           [Event.callGetCollaboratorPermission, Event.callGetOrgMembership])
      | Except.error _ =>
        (false, "",
         [Event.callGetCollaboratorPermission, Event.callGetOrgMembership])
  else (false, "", [])

/-- The `errorReason` column of the failing claim row. -/
def deniedReason (currentUser : GhUser) (repoData : RepoData) : String :=
  "User " ++ currentUser.username ++
    " does not have required permissions. Repository owner: " ++
    repoData.owner.login

/-- Message of the FORBIDDEN `TRPCError`. -/
def forbiddenMsg (currentUser : GhUser) (repoData : RepoData) : String :=
  "You don't have the required permissions to claim this project. " ++
    "You must be either the repository owner or an organization owner. " ++
    "Current user: " ++ currentUser.username ++ ", Repository owner: " ++
    repoData.owner.login

/-- Message of the CONFLICT `TRPCError`. -/
def conflictMsg : String := "Project has already been claimed by another user"

/-- The failing `projectClaim` insert of the denial branch. -/
def failRow (projectId userId : String) (currentUser : GhUser)
    (repoData : RepoData) : ClaimRow :=
  { projectId := projectId
    userId := userId
    success := false
    verificationMethod := "github_api"
    verifiedAs := currentUser.username
    repoOwner := repoData.owner.login
    repoOwnerType := repoData.owner.type
    reason := some "insufficient_permissions"
    ownershipType := none
    repositoryUrl := none
    errorReason := some (deniedReason currentUser repoData) }

/-- The successful `projectClaim` insert (note the code stores the
`ownershipType` string itself as `verificationMethod` here). -/
def successRow (projectId userId : String) (currentUser : GhUser)
    (repoData : RepoData) (ownershipType ownerSeg repoSeg : String) : ClaimRow :=
  { projectId := projectId
    userId := userId
    success := true
    verificationMethod := ownershipType
    verifiedAs := currentUser.username
    repoOwner := repoData.owner.login
    repoOwnerType := repoData.owner.type
    reason := none
    ownershipType := some ownershipType
    repositoryUrl := some ("https://github.com/" ++ ownerSeg ++ "/" ++ repoSeg)
    errorReason := none }

/-- Return value of a successful `verifyOwnership`. -/
structure VResult where
  success : Bool
  project : Project
  ownershipType : String
  verifiedAs : String
deriving DecidableEq, Repr

/-- `verifyOwnership(identifier, ctx, projectId)`: parse the identifier,
resolve the caller and the repository (failures propagate with no claim
written), run the authorization chain; on denial insert the failing
claim row and throw FORBIDDEN; on success run the conditional ownership
update, throw CONFLICT if it returned no row, else insert the success
claim row and return. `session` is `ctx.session?.userId`; evaluating
`ctx.session!.userId` with `session = none` raises `runtimeTypeError`,
while the update's `ctx.session?.userId ?? null` simply passes `none`.
Returns the outcome, the final database state and the event trace. -/
def verifyOwnership (env : GhEnv) (identifier : String) (session : Option String)
    (db : DB) (now : Nat) (projectId : String) :
    Except VError VResult × DB × List Event :=
  match parseRepoIdentifier identifier with
  | Except.error e => (Except.error e, db, [])
  | Except.ok (ownerSeg, repoSeg) =>
    match env.currentUser with
    | Except.error e =>
      (Except.error (VError.providerError e), db, [Event.callGetCurrentUser])
    | Except.ok currentUser =>
      match env.repoResult with
      | Except.error e =>
        (Except.error (VError.providerError e), db,
         [Event.callGetCurrentUser, Event.callGetRepo])
      | Except.ok repoData =>
        let dec := ownershipDecision env currentUser repoData
        let events0 := Event.callGetCurrentUser :: Event.callGetRepo :: dec.2.2
        if dec.1 = false then
          match session with
          | none => (Except.error VError.runtimeTypeError, db, events0)
          | some uid =>
            let row := failRow projectId uid currentUser repoData
            (Except.error (VError.forbidden (forbiddenMsg currentUser repoData)),
             { db with claims := db.claims ++ [row] },
             events0 ++ [Event.dbInsertClaim row])
        else
          let upd := updateProjectWhereUnowned db.projects projectId session now
          let db1 : DB := { db with projects := upd.1 }
          let events1 := events0 ++ [Event.dbUpdateOwner projectId session upd.2.length]
          match upd.2 with
          | [] => (Except.error (VError.conflict conflictMsg), db1, events1)
          | p :: _ =>
            match session with
            | none => (Except.error VError.runtimeTypeError, db1, events1)
            | some uid =>
              let row := successRow projectId uid currentUser repoData dec.2.1
                ownerSeg repoSeg
              (Except.ok
                 { success := true, project := p, ownershipType := dec.2.1,
                   verifiedAs := currentUser.username },
               { db1 with claims := db1.claims ++ [row] },
               events1 ++ [Event.dbInsertClaim row])

/-- Nested `repository` object of a pull-request GraphQL node (with
`owner { login }` flattened to `ownerLogin`). -/
structure PRRepoRef where
  nameWithOwner : String
  url : String
  isPrivate : Bool
  ownerLogin : String
deriving DecidableEq, Repr

/-- A raw GraphQL pull-request node as typed in the query: `state` is
the upstream string (`"OPEN" | "CLOSED" | "MERGED"`), `closedAt` and
`mergedAt` are nullable timestamps. -/
structure PRNode where
  id : String
  number : Nat
  title : String
  state : String
  isDraft : Bool
  createdAt : String
  updatedAt : String
  closedAt : Option String
  mergedAt : Option String
  url : String
  headRefName : String
  baseRefName : String
  repository : PRRepoRef
deriving DecidableEq, Repr

/-- Normalized `UserPullRequestData`: `state` lowercased, nullable
timestamps mapped through `x || undefined`. -/
structure UserPullRequestData where
  id : String
  number : Nat
  title : String
  state : String
  url : String
  createdAt : String
  updatedAt : String
  closedAt : Option String
  mergedAt : Option String
  isDraft : Bool
  headRefName : String
  baseRefName : String
  repository : PRRepoRef
deriving DecidableEq, Repr

/-- js `str.toLowerCase()`: lower-case the string character by
character (the upstream states OPEN/CLOSED/MERGED are plain ASCII). -/
def jsToLower (s : String) : String := String.mk (s.data.map Char.toLower)

/-- js `x || undefined` on a nullable string: null and the empty string
(both falsy) become `undefined` (`none`). -/
def jsOrUndef : Option String → Option String
  | some s => if s = "" then none else some s
  | none => none

/-- The `prs.map((pr) => ...)` normalization inside the fetch loop. -/
def formatPR (pr : PRNode) : UserPullRequestData :=
  { id := pr.id
    number := pr.number
    title := pr.title
    state := jsToLower pr.state
    url := pr.url
    createdAt := pr.createdAt
    updatedAt := pr.updatedAt
    closedAt := jsOrUndef pr.closedAt
    mergedAt := jsOrUndef pr.mergedAt
    isDraft := pr.isDraft
    headRefName := pr.headRefName
    baseRefName := pr.baseRefName
    repository := pr.repository }

/-- The `filteredPRs` predicate: `all` keeps everything, `open` keeps
state `open`, `closed` keeps state `closed` without a merge timestamp,
`merged` keeps state `merged` OR any non-empty merge timestamp; an
unrecognized filter keeps everything. -/
def passesStateFilter (stateFilter : String) (pr : UserPullRequestData) : Bool :=
  if stateFilter = "all" then true
  else if stateFilter = "open" then pr.state == "open"
  else if stateFilter = "closed" then pr.state == "closed" && !pr.mergedAt.isSome
  else if stateFilter = "merged" then pr.state == "merged" || pr.mergedAt.isSome
  else true

/-- One GraphQL response page: the `nodes` array and
`pageInfo.hasNextPage`. -/
structure PRPage where
  nodes : List PRNode
  hasNextPage : Bool
deriving DecidableEq, Repr

/-- The GraphQL endpoint's behaviour for the given username: either the
`user` field is null on every response (unknown login), or the endpoint
serves the given pages in cursor order. -/
inductive GqlResp
  | noUser
  | userPages (pages : List PRPage)
deriving DecidableEq, Repr

/-- The `while (hasNextPage && allPRs.length < limit)` loop: each
iteration consumes the next response page, formats and filters its
nodes, appends them, and stops when the page reports no next page or
the accumulated length reaches `limit`. An exhausted page list behaves
like a response with `hasNextPage = false` and no nodes. -/
def fetchPRLoop (stateFilter : String) (limit : Nat) :
    List PRPage → List UserPullRequestData → List UserPullRequestData
  | [], acc => acc
  | page :: rest, acc =>
    if acc.length < limit then
      let acc2 := acc ++ (page.nodes.map formatPR).filter (passesStateFilter stateFilter)
      if !page.hasNextPage || limit ≤ acc2.length then acc2
      else fetchPRLoop stateFilter limit rest acc2
    else acc

/-- `options?.limit || 100`: absent and `0` (falsy) both give 100. -/
def resolveLimit : Option Nat → Nat
  | some n => if n = 0 then 100 else n
  | none => 100

/-- `options?.state || 'all'`. -/
def resolveStateFilter : Option String → String
  | some s => if s = "" then "all" else s
  | none => "all"

/-- `getUserPullRequests(username, options)`: resolve the default limit
and state filter, throw NOT_FOUND when the response's `user` is null
(the `if (!response.user)` check of the first loop iteration), else run
the pagination loop from an empty accumulator and return
`allPRs.slice(0, limit)`. -/
def getUserPullRequests (resp : GqlResp) (username : String)
    (stateOpt : Option String) (limitOpt : Option Nat) :
    Except VError (List UserPullRequestData) :=
  let limit := resolveLimit limitOpt
  let stateFilter := resolveStateFilter stateOpt
  match resp with
  | GqlResp.noUser =>
    Except.error (VError.notFound ("GitHub user '" ++ username ++ "' not found"))
  | GqlResp.userPages pages =>
    Except.ok ((fetchPRLoop stateFilter limit pages []).take limit)

theorem data_mk (l : List Char) : (String.mk l).data = l := rfl

/-- C8 counterexample: on `"a/b/c"` the parser does not fail and does
not split on the first slash either — it silently drops the trailing
`"/c"` and returns `("a", "b")`, contradicting both halves of the
claim at this input. -/
theorem C8_counterexample :
    parseRepoIdentifier "a/b/c" = Except.ok ("a", "b") ∧
      parseRepoIdentifier "a/b/c" ≠ Except.ok ("a", "b/c") := by
  constructor
  · rfl
  · intro h
    rw [show parseRepoIdentifier "a/b/c" = Except.ok ("a", "b") from rfl] at h
    simp only [Except.ok.injEq, Prod.mk.injEq] at h
    exact absurd h.2 (by decide)

/-- C8 (amended): identifiers with exactly one `/` and two non-empty
slash-free segments round-trip to those segments; identifiers with
further `/`-separated components also succeed but return only the first
two components, silently dropping the rest; parsing fails with the
InvalidIdentifier error exactly when the component before the first `/`
is empty, or there is no `/` at all, or the component between the first
and second `/` (or the end) is empty. -/
theorem C8_parse_spec :
    (∀ o n : List Char, '/' ∉ o → '/' ∉ n → o ≠ [] → n ≠ [] →
       parseRepoIdentifier (String.mk (o ++ '/' :: n)) =
         Except.ok (String.mk o, String.mk n)) ∧
    (∀ o n rest : List Char, '/' ∉ o → '/' ∉ n → o ≠ [] → n ≠ [] →
       parseRepoIdentifier (String.mk (o ++ '/' :: (n ++ '/' :: rest))) =
         Except.ok (String.mk o, String.mk n)) ∧
    (∀ s : String, '/' ∉ s.data →
       parseRepoIdentifier s = Except.error (VError.invalidIdentifier invalidRepoMsg)) ∧
    (∀ rest : List Char,
       parseRepoIdentifier (String.mk ('/' :: rest)) =
         Except.error (VError.invalidIdentifier invalidRepoMsg)) ∧
    (∀ o : List Char, '/' ∉ o →
       parseRepoIdentifier (String.mk (o ++ ['/'])) =
         Except.error (VError.invalidIdentifier invalidRepoMsg)) ∧
    (∀ o rest : List Char, '/' ∉ o →
       parseRepoIdentifier (String.mk (o ++ '/' :: '/' :: rest)) =
         Except.error (VError.invalidIdentifier invalidRepoMsg)) := by
  refine ⟨?_, ?_, ?_, ?_, ?_, ?_⟩
  · intro o n ho hn ho' hn'
    unfold parseRepoIdentifier
    simp only [data_mk, splitSlash_append o n ho, splitSlash_no_slash n hn,
      List.getD_cons_zero, List.getD_cons_succ]
    rw [if_neg]
    simp only [mk_eq_empty_iff, ho', hn', or_self, not_false_eq_true]
  · intro o n rest ho hn ho' hn'
    unfold parseRepoIdentifier
    simp only [data_mk, splitSlash_append o _ ho, splitSlash_append n rest hn,
      List.getD_cons_zero, List.getD_cons_succ]
    rw [if_neg]
    simp only [mk_eq_empty_iff, ho', hn', or_self, not_false_eq_true]
  · intro s hs
    unfold parseRepoIdentifier
    simp only [splitSlash_no_slash s.data hs, List.getD_cons_zero,
      List.getD_cons_succ]
    rw [if_pos]
    exact Or.inr rfl
  · intro rest
    unfold parseRepoIdentifier
    simp only [data_mk, splitSlash]
    rw [if_pos]
    exact Or.inl rfl
  · intro o ho
    unfold parseRepoIdentifier
    simp only [data_mk, splitSlash_append o [] ho, splitSlash,
      List.getD_cons_zero, List.getD_cons_succ]
    rw [if_pos]
    exact Or.inr (by simp)
  · intro o rest ho
    unfold parseRepoIdentifier
    simp only [data_mk, splitSlash_append o ('/' :: rest) ho, splitSlash,
      List.getD_cons_zero, List.getD_cons_succ]
    rw [if_pos]
    exact Or.inr rfl

/-- C8 witness: the amended theorem evaluated at `"octo/Hello"`,
`"octo/Hello/x"`, `"nobody"`, `"/x"`, `"a/"` and `"a//b"`. -/
theorem C8_parse_spec_witness :
    parseRepoIdentifier "octo/Hello" = Except.ok ("octo", "Hello") ∧
    parseRepoIdentifier "octo/Hello/x" = Except.ok ("octo", "Hello") ∧
    parseRepoIdentifier "nobody" = Except.error (VError.invalidIdentifier invalidRepoMsg) ∧
    parseRepoIdentifier "/x" = Except.error (VError.invalidIdentifier invalidRepoMsg) ∧
    parseRepoIdentifier "a/" = Except.error (VError.invalidIdentifier invalidRepoMsg) ∧
    parseRepoIdentifier "a//b" = Except.error (VError.invalidIdentifier invalidRepoMsg) :=
  ⟨C8_parse_spec.1 ['o','c','t','o'] ['H','e','l','l','o']
      (by decide) (by decide) (by decide) (by decide),
   C8_parse_spec.2.1 ['o','c','t','o'] ['H','e','l','l','o'] ['x']
      (by decide) (by decide) (by decide) (by decide),
   C8_parse_spec.2.2.1 "nobody" (by decide),
   C8_parse_spec.2.2.2.1 ['x'],
   C8_parse_spec.2.2.2.2.1 ['a'] (by decide),
   C8_parse_spec.2.2.2.2.2 ['a'] ['b'] (by decide)⟩

section OwnershipLemmas

variable (env : GhEnv) (identifier : String) (db : DB) (now : Nat)
variable (projectId : String)

theorem ownershipDecision_direct (u : GhUser) (r : RepoData)
    (hlogin : r.owner.login = u.username) :
    ownershipDecision env u r = (true, "repository owner", []) := by
  unfold ownershipDecision
  rw [if_pos hlogin]

theorem ownershipDecision_admin_fallback (u : GhUser) (r : RepoData) (e : String)
    (hlogin : r.owner.login ≠ u.username) (htype : r.owner.type = "Organization")
    (hperm : env.collaboratorPermission = Except.ok "admin")
    (hmem : env.orgMembership = Except.error e) :
    ownershipDecision env u r =
      (true, "repository admin",
       [Event.callGetCollaboratorPermission, Event.callGetOrgMembership]) := by
  unfold ownershipDecision
  rw [if_neg hlogin, if_pos htype, hperm]
  simp [hmem]

theorem ownershipDecision_catch_org_owner (u : GhUser) (r : RepoData) (e : String)
    (m : OrgMembership) (hlogin : r.owner.login ≠ u.username)
    (htype : r.owner.type = "Organization")
    (hperm : env.collaboratorPermission = Except.error e)
    (hmem : env.orgMembership = Except.ok m)
    (hrole : m.role = "admin") (hstate : m.state = "active") :
    ownershipDecision env u r =
      (true, "organization owner",
       [Event.callGetCollaboratorPermission, Event.callGetOrgMembership]) := by
  unfold ownershipDecision
  rw [if_neg hlogin, if_pos htype, hperm, hmem]
  simp [hrole, hstate]

theorem ownershipDecision_catch_denied (u : GhUser) (r : RepoData) (e : String)
    (hlogin : r.owner.login ≠ u.username) (htype : r.owner.type = "Organization")
    (hperm : env.collaboratorPermission = Except.error e)
    (hmem : ∀ m, env.orgMembership = Except.ok m →
       ¬(m.role = "admin" ∧ m.state = "active")) :
    ownershipDecision env u r =
      (false, "",
       [Event.callGetCollaboratorPermission, Event.callGetOrgMembership]) := by
  unfold ownershipDecision
  rw [if_neg hlogin, if_pos htype, hperm]
  cases hm : env.orgMembership with
  | error e2 => simp
  | ok m => simp [if_neg (hmem m hm)]

theorem ownershipDecision_nonadmin_perm (u : GhUser) (r : RepoData) (perm : String)
    (hlogin : r.owner.login ≠ u.username) (htype : r.owner.type = "Organization")
    (hperm : env.collaboratorPermission = Except.ok perm)
    (hpermne : perm ≠ "admin") :
    ownershipDecision env u r =
      (false, "", [Event.callGetCollaboratorPermission]) := by
  unfold ownershipDecision
  rw [if_neg hlogin, if_pos htype, hperm]
  simp [hpermne]

theorem ownershipDecision_calls_are_calls (u : GhUser) (r : RepoData) :
    ∀ e ∈ (ownershipDecision env u r).2.2, e.isProviderCall = true := by
  unfold ownershipDecision
  repeat' split
  all_goals simp [Event.isProviderCall]

theorem update_no_match (newOwner : Option String)
    (h : ∀ q ∈ db.projects, q.id = projectId → q.ownerId ≠ none) :
    updateProjectWhereUnowned db.projects projectId newOwner now =
      (db.projects, []) := by
  unfold updateProjectWhereUnowned
  rw [Prod.mk.injEq]
  constructor
  · rw [List.map_congr_left (g := fun p => p)]
    · simp
    · intro p hp
      rw [if_neg]
      rintro ⟨h1, h2⟩
      exact h p hp h1 h2
  · rw [show (db.projects.filter fun p =>
        decide (p.id = projectId ∧ p.ownerId = none)) = [] from ?_]
    · simp
    · rw [List.filter_eq_nil_iff]
      intro p hp
      simp only [decide_eq_true_eq, not_and]
      intro h1 h2
      exact h p hp h1 h2

theorem update_has_match (newOwner : Option String)
    (h : ∃ p ∈ db.projects, p.id = projectId ∧ p.ownerId = none) :
    (updateProjectWhereUnowned db.projects projectId newOwner now).2 ≠ [] := by
  obtain ⟨p, hp, hcond⟩ := h
  unfold updateProjectWhereUnowned
  intro hnil
  rw [List.map_eq_nil_iff, List.filter_eq_nil_iff] at hnil
  exact absurd (by simpa using hcond) (hnil p hp)

theorem update_none_preserves_ownerIds :
    ((updateProjectWhereUnowned db.projects projectId none now).1).map
        Project.ownerId = db.projects.map Project.ownerId := by
  unfold updateProjectWhereUnowned
  simp only [List.map_map]
  apply List.map_congr_left
  intro p _
  by_cases h : p.id = projectId ∧ p.ownerId = none
  · simp only [Function.comp_apply, if_pos h]
    exact h.2.symm
  · simp only [Function.comp_apply, if_neg h]

theorem verifyOwnership_parse_err (session : Option String) (e : VError)
    (hparse : parseRepoIdentifier identifier = Except.error e) :
    verifyOwnership env identifier session db now projectId =
      (Except.error e, db, []) := by
  unfold verifyOwnership
  rw [hparse]

theorem verifyOwnership_user_err (session : Option String) (ow rp : String)
    (e : String)
    (hparse : parseRepoIdentifier identifier = Except.ok (ow, rp))
    (hu : env.currentUser = Except.error e) :
    verifyOwnership env identifier session db now projectId =
      (Except.error (VError.providerError e), db, [Event.callGetCurrentUser]) := by
  unfold verifyOwnership
  rw [hparse, hu]

theorem verifyOwnership_repo_err (session : Option String) (ow rp : String)
    (e : String) (u : GhUser)
    (hparse : parseRepoIdentifier identifier = Except.ok (ow, rp))
    (hu : env.currentUser = Except.ok u)
    (hr : env.repoResult = Except.error e) :
    verifyOwnership env identifier session db now projectId =
      (Except.error (VError.providerError e), db,
       [Event.callGetCurrentUser, Event.callGetRepo]) := by
  unfold verifyOwnership
  rw [hparse, hu, hr]

theorem verifyOwnership_denied_eq (uid : String) (ow rp : String) (u : GhUser)
    (r : RepoData) (ot : String) (calls : List Event)
    (hparse : parseRepoIdentifier identifier = Except.ok (ow, rp))
    (hu : env.currentUser = Except.ok u)
    (hr : env.repoResult = Except.ok r)
    (hdec : ownershipDecision env u r = (false, ot, calls)) :
    verifyOwnership env identifier (some uid) db now projectId =
      (Except.error (VError.forbidden (forbiddenMsg u r)),
       { db with claims := db.claims ++ [failRow projectId uid u r] },
       (Event.callGetCurrentUser :: Event.callGetRepo :: calls) ++
         [Event.dbInsertClaim (failRow projectId uid u r)]) := by
  unfold verifyOwnership
  rw [hparse, hu, hr]
  simp only [hdec]
  simp

theorem verifyOwnership_conflict_eq (session : Option String) (ow rp : String)
    (u : GhUser) (r : RepoData) (ot : String) (calls : List Event)
    (hparse : parseRepoIdentifier identifier = Except.ok (ow, rp))
    (hu : env.currentUser = Except.ok u)
    (hr : env.repoResult = Except.ok r)
    (hdec : ownershipDecision env u r = (true, ot, calls))
    (hupd : (updateProjectWhereUnowned db.projects projectId session now).2 = []) :
    verifyOwnership env identifier session db now projectId =
      (Except.error (VError.conflict conflictMsg),
       { db with projects :=
           (updateProjectWhereUnowned db.projects projectId session now).1 },
       (Event.callGetCurrentUser :: Event.callGetRepo :: calls) ++
         [Event.dbUpdateOwner projectId session 0]) := by
  unfold verifyOwnership
  rw [hparse, hu, hr]
  simp only [hdec, hupd]
  simp

theorem verifyOwnership_success_eq (uid : String) (ow rp : String)
    (u : GhUser) (r : RepoData) (ot : String) (calls : List Event)
    (p : Project) (rest : List Project)
    (hparse : parseRepoIdentifier identifier = Except.ok (ow, rp))
    (hu : env.currentUser = Except.ok u)
    (hr : env.repoResult = Except.ok r)
    (hdec : ownershipDecision env u r = (true, ot, calls))
    (hupd : (updateProjectWhereUnowned db.projects projectId (some uid) now).2 =
       p :: rest) :
    verifyOwnership env identifier (some uid) db now projectId =
      (Except.ok
         { success := true, project := p, ownershipType := ot,
           verifiedAs := u.username },
       { projects := (updateProjectWhereUnowned db.projects projectId (some uid) now).1,
         claims := db.claims ++ [successRow projectId uid u r ot ow rp] },
       (Event.callGetCurrentUser :: Event.callGetRepo :: calls) ++
         [Event.dbUpdateOwner projectId (some uid) (p :: rest).length,
          Event.dbInsertClaim (successRow projectId uid u r ot ow rp)]) := by
  unfold verifyOwnership
  rw [hparse, hu, hr]
  simp only [hdec, hupd]
  simp

theorem update_returned_ownerId (newOwner : Option String) (p : Project)
    (hp : p ∈ (updateProjectWhereUnowned db.projects projectId newOwner now).2) :
    p.ownerId = newOwner := by
  unfold updateProjectWhereUnowned at hp
  simp only [List.mem_map] at hp
  obtain ⟨q, -, rfl⟩ := hp
  rfl

theorem verifyOwnership_denied_none_eq (ow rp : String) (u : GhUser)
    (r : RepoData) (ot : String) (calls : List Event)
    (hparse : parseRepoIdentifier identifier = Except.ok (ow, rp))
    (hu : env.currentUser = Except.ok u)
    (hr : env.repoResult = Except.ok r)
    (hdec : ownershipDecision env u r = (false, ot, calls)) :
    verifyOwnership env identifier none db now projectId =
      (Except.error VError.runtimeTypeError, db,
       Event.callGetCurrentUser :: Event.callGetRepo :: calls) := by
  unfold verifyOwnership
  rw [hparse, hu, hr]
  simp only [hdec]
  simp

theorem verifyOwnership_rows_none_eq (ow rp : String) (u : GhUser)
    (r : RepoData) (ot : String) (calls : List Event) (p : Project)
    (rest : List Project)
    (hparse : parseRepoIdentifier identifier = Except.ok (ow, rp))
    (hu : env.currentUser = Except.ok u)
    (hr : env.repoResult = Except.ok r)
    (hdec : ownershipDecision env u r = (true, ot, calls))
    (hupd : (updateProjectWhereUnowned db.projects projectId none now).2 =
       p :: rest) :
    verifyOwnership env identifier none db now projectId =
      (Except.error VError.runtimeTypeError,
       { db with projects :=
           (updateProjectWhereUnowned db.projects projectId none now).1 },
       (Event.callGetCurrentUser :: Event.callGetRepo :: calls) ++
         [Event.dbUpdateOwner projectId none (p :: rest).length]) := by
  unfold verifyOwnership
  rw [hparse, hu, hr]
  simp only [hdec, hupd]
  simp

end OwnershipLemmas

/-! Concrete fixtures used by the C1–C7 witnesses and counterexamples. -/

/-- Caller resolved by `getCurrentUser` in the scenarios. -/
def alice : GhUser := { id := "7", username := "alice" }

/-- Owner object of an organization-owned repository. -/
def acmeOwner : RepoOwner := { login := "acme", type := "Organization" }

/-- Organization-owned repository `acme/widgets`. -/
def acmeRepo : RepoData :=
  { id := 1, name := "widgets", description := none,
    url := "https://github.com/acme/widgets", isPrivate := false,
    owner := acmeOwner }

/-- User-owned repository whose owner login equals the caller login. -/
def aliceRepo : RepoData :=
  { id := 2, name := "hello", description := none,
    url := "https://github.com/alice/hello", isPrivate := false,
    owner := { login := "alice", type := "User" } }

/-- Scenario A environment: caller is the direct repository owner. -/
def envDirect : GhEnv :=
  { currentUser := Except.ok alice, repoResult := Except.ok aliceRepo,
    collaboratorPermission := Except.error "unused",
    orgMembership := Except.error "unused" }

/-- Scenario B environment: admin collaborator permission, failing
org-membership lookup. -/
def envB : GhEnv :=
  { currentUser := Except.ok alice, repoResult := Except.ok acmeRepo,
    collaboratorPermission := Except.ok "admin",
    orgMembership := Except.error "membership lookup failed" }

/-- Scenario C environment: permission lookup throws (not a
collaborator), org membership is role admin / state active. -/
def envC : GhEnv :=
  { currentUser := Except.ok alice, repoResult := Except.ok acmeRepo,
    collaboratorPermission := Except.error "not a collaborator",
    orgMembership := Except.ok { role := "admin", state := "active" } }

/-- Scenario D environment: permission lookup succeeds with `write`,
while an admin/active org membership would be available upstream. -/
def envWrite : GhEnv :=
  { currentUser := Except.ok alice, repoResult := Except.ok acmeRepo,
    collaboratorPermission := Except.ok "write",
    orgMembership := Except.ok { role := "admin", state := "active" } }

/-- Unclaimed project row. -/
def freshProject : Project := { id := "p1", ownerId := none, updatedAt := 0 }

/-- Project row already claimed by user `bob`. -/
def claimedProject : Project := { id := "p1", ownerId := some "bob", updatedAt := 0 }

/-- Database with one unclaimed project and no claims. -/
def dbFresh : DB := { projects := [freshProject], claims := [] }

/-- Database whose only project is already claimed. -/
def dbClaimed : DB := { projects := [claimedProject], claims := [] }

/-- C1: when the ownership checks pass but every row with the given
project id already has a non-null ownerId, the conditional update
(matching id AND null ownerId) affects zero rows, the call fails with
the Conflict error, the database — projects and claims alike — is left
exactly as it was (no owner overwritten, no success ClaimAttempt
row), and the trace records the update returning zero rows and no
insert. -/
theorem C1_claimed_project_conflict (env : GhEnv) (identifier : String)
    (session : Option String) (db : DB) (now : Nat) (projectId : String)
    (ow rp : String) (u : GhUser) (r : RepoData) (ot : String)
    (calls : List Event)
    (hparse : parseRepoIdentifier identifier = Except.ok (ow, rp))
    (hu : env.currentUser = Except.ok u)
    (hr : env.repoResult = Except.ok r)
    (hdec : ownershipDecision env u r = (true, ot, calls))
    (hclaimed : ∀ q ∈ db.projects, q.id = projectId → q.ownerId ≠ none) :
    verifyOwnership env identifier session db now projectId =
      (Except.error (VError.conflict conflictMsg), db,
       (Event.callGetCurrentUser :: Event.callGetRepo :: calls) ++
         [Event.dbUpdateOwner projectId session 0]) := by
  have hupd := update_no_match db now projectId session hclaimed
  have h2 : (updateProjectWhereUnowned db.projects projectId session now).2 = [] := by
    rw [hupd]
  rw [verifyOwnership_conflict_eq env identifier db now projectId session ow rp
    u r ot calls hparse hu hr hdec h2, hupd]

/-- C1 witness: the claim theorem at scenario-A identity over an
already-claimed project. -/
theorem C1_claimed_project_conflict_witness :
    verifyOwnership envDirect "alice/hello" (some "u1") dbClaimed 5 "p1" =
      (Except.error (VError.conflict conflictMsg), dbClaimed,
       [Event.callGetCurrentUser, Event.callGetRepo,
        Event.dbUpdateOwner "p1" (some "u1") 0]) :=
  C1_claimed_project_conflict envDirect "alice/hello" (some "u1") dbClaimed 5
    "p1" "alice" "hello" alice aliceRepo "repository owner" []
    rfl rfl rfl rfl (by decide)

/-- C2: organization-owned repository, caller not the direct owner,
collaborator permission resolves to admin, org-membership lookup
throws: the attempt succeeds with ownershipType "repository admin"
(the permissive fallback). -/
theorem C2_repository_admin_fallback (env : GhEnv) (identifier : String)
    (uid : String) (db : DB) (now : Nat) (projectId : String)
    (ow rp : String) (u : GhUser) (r : RepoData) (e : String)
    (hparse : parseRepoIdentifier identifier = Except.ok (ow, rp))
    (hu : env.currentUser = Except.ok u)
    (hr : env.repoResult = Except.ok r)
    (hneq : r.owner.login ≠ u.username)
    (htype : r.owner.type = "Organization")
    (hperm : env.collaboratorPermission = Except.ok "admin")
    (hmem : env.orgMembership = Except.error e)
    (hproj : ∃ p ∈ db.projects, p.id = projectId ∧ p.ownerId = none) :
    ∃ res db' events,
      verifyOwnership env identifier (some uid) db now projectId =
        (Except.ok res, db', events) ∧
      res.success = true ∧ res.ownershipType = "repository admin" ∧
      res.verifiedAs = u.username := by
  have hdec := ownershipDecision_admin_fallback env u r e hneq htype hperm hmem
  have hne := update_has_match db now projectId (some uid) hproj
  cases hupd : (updateProjectWhereUnowned db.projects projectId (some uid) now).2 with
  | nil => exact absurd hupd hne
  | cons p rest =>
    exact ⟨_, _, _,
      verifyOwnership_success_eq env identifier db now projectId uid ow rp u r
        _ _ p rest hparse hu hr hdec hupd, rfl, rfl, rfl⟩

/-- C2 witness: the claim theorem at the scenario-B fixture. -/
theorem C2_repository_admin_fallback_witness :
    ∃ res db' events,
      verifyOwnership envB "acme/widgets" (some "u1") dbFresh 5 "p1" =
        (Except.ok res, db', events) ∧
      res.success = true ∧ res.ownershipType = "repository admin" ∧
      res.verifiedAs = "alice" :=
  C2_repository_admin_fallback envB "acme/widgets" "u1" dbFresh 5 "p1"
    "acme" "widgets" alice acmeRepo "membership lookup failed"
    rfl rfl rfl (by decide) rfl rfl rfl (by decide)

/-- C3 counterexample: organization-owned repository, collaborator
permission lookup succeeds with the non-admin level "write", and an
admin/active org membership is available upstream — yet the code denies
the claim and never performs the org-membership lookup. The claimed
"permission was not admin ⟹ attempt get_org_membership" fallback does
not exist: the fallback only runs when the permission lookup throws. -/
theorem C3_counterexample :
    (verifyOwnership envWrite "acme/widgets" (some "u1") dbFresh 5 "p1").1 =
      Except.error (VError.forbidden (forbiddenMsg alice acmeRepo)) ∧
    Event.callGetOrgMembership ∉
      (verifyOwnership envWrite "acme/widgets" (some "u1") dbFresh 5 "p1").2.2 :=
  ⟨rfl, by decide⟩

/-- C3 (amended): the org-membership fallback is attempted only when the
collaborator-permission lookup throws. In that case: a membership of
role admin and state active grants ownership with ownershipType
"organization owner"; a failing membership lookup is swallowed and the
attempt is denied; a membership that is not admin/active likewise
leaves is_owner false and the attempt is denied. When the permission
lookup instead succeeds with a non-admin level, no org-membership
lookup is performed at all and the attempt is denied. -/
theorem C3_org_membership_fallback :
    (∀ (env : GhEnv) (identifier uid : String) (db : DB) (now : Nat)
       (projectId ow rp : String) (u : GhUser) (r : RepoData) (e : String)
       (m : OrgMembership),
       parseRepoIdentifier identifier = Except.ok (ow, rp) →
       env.currentUser = Except.ok u →
       env.repoResult = Except.ok r →
       r.owner.login ≠ u.username →
       r.owner.type = "Organization" →
       env.collaboratorPermission = Except.error e →
       env.orgMembership = Except.ok m →
       m.role = "admin" → m.state = "active" →
       (∃ p ∈ db.projects, p.id = projectId ∧ p.ownerId = none) →
       ∃ res db' events,
         verifyOwnership env identifier (some uid) db now projectId =
           (Except.ok res, db', events) ∧
         res.success = true ∧ res.ownershipType = "organization owner") ∧
    (∀ (env : GhEnv) (identifier uid : String) (db : DB) (now : Nat)
       (projectId ow rp : String) (u : GhUser) (r : RepoData) (e1 e2 : String),
       parseRepoIdentifier identifier = Except.ok (ow, rp) →
       env.currentUser = Except.ok u →
       env.repoResult = Except.ok r →
       r.owner.login ≠ u.username →
       r.owner.type = "Organization" →
       env.collaboratorPermission = Except.error e1 →
       env.orgMembership = Except.error e2 →
       (verifyOwnership env identifier (some uid) db now projectId).1 =
         Except.error (VError.forbidden (forbiddenMsg u r))) ∧
    (∀ (env : GhEnv) (identifier uid : String) (db : DB) (now : Nat)
       (projectId ow rp : String) (u : GhUser) (r : RepoData) (e : String)
       (m : OrgMembership),
       parseRepoIdentifier identifier = Except.ok (ow, rp) →
       env.currentUser = Except.ok u →
       env.repoResult = Except.ok r →
       r.owner.login ≠ u.username →
       r.owner.type = "Organization" →
       env.collaboratorPermission = Except.error e →
       env.orgMembership = Except.ok m →
       ¬(m.role = "admin" ∧ m.state = "active") →
       (verifyOwnership env identifier (some uid) db now projectId).1 =
         Except.error (VError.forbidden (forbiddenMsg u r))) ∧
    (∀ (env : GhEnv) (identifier uid : String) (db : DB) (now : Nat)
       (projectId ow rp : String) (u : GhUser) (r : RepoData) (perm : String),
       parseRepoIdentifier identifier = Except.ok (ow, rp) →
       env.currentUser = Except.ok u →
       env.repoResult = Except.ok r →
       r.owner.login ≠ u.username →
       r.owner.type = "Organization" →
       env.collaboratorPermission = Except.ok perm →
       perm ≠ "admin" →
       (verifyOwnership env identifier (some uid) db now projectId).1 =
           Except.error (VError.forbidden (forbiddenMsg u r)) ∧
         Event.callGetOrgMembership ∉
           (verifyOwnership env identifier (some uid) db now projectId).2.2) := by
  refine ⟨?_, ?_, ?_, ?_⟩
  · intro env identifier uid db now projectId ow rp u r e m hparse hu hr hneq
      htype hperm hmem hrole hstate hproj
    have hdec := ownershipDecision_catch_org_owner env u r e m hneq htype hperm
      hmem hrole hstate
    have hne := update_has_match db now projectId (some uid) hproj
    cases hupd : (updateProjectWhereUnowned db.projects projectId (some uid) now).2 with
    | nil => exact absurd hupd hne
    | cons p rest =>
      exact ⟨_, _, _,
        verifyOwnership_success_eq env identifier db now projectId uid ow rp u r
          _ _ p rest hparse hu hr hdec hupd, rfl, rfl⟩
  · intro env identifier uid db now projectId ow rp u r e1 e2 hparse hu hr hneq
      htype hperm hmem
    have hdec := ownershipDecision_catch_denied env u r e1 hneq htype hperm
      (fun m hm => absurd (hm ▸ hmem) (by simp))
    rw [verifyOwnership_denied_eq env identifier db now projectId uid ow rp u r
      _ _ hparse hu hr hdec]
  · intro env identifier uid db now projectId ow rp u r e m hparse hu hr hneq
      htype hperm hmem hnadm
    have hdec := ownershipDecision_catch_denied env u r e hneq htype hperm
      (fun m2 hm2 => by
        rw [hmem] at hm2
        cases hm2
        exact hnadm)
    rw [verifyOwnership_denied_eq env identifier db now projectId uid ow rp u r
      _ _ hparse hu hr hdec]
  · intro env identifier uid db now projectId ow rp u r perm hparse hu hr hneq
      htype hperm hpermne
    have hdec := ownershipDecision_nonadmin_perm env u r perm hneq htype hperm
      hpermne
    rw [verifyOwnership_denied_eq env identifier db now projectId uid ow rp u r
      _ _ hparse hu hr hdec]
    exact ⟨rfl, by simp⟩

/-- C3 witness: the amended theorem's granting branch at the scenario-C
fixture, and its no-lookup branch at the scenario-D fixture. -/
theorem C3_org_membership_fallback_witness :
    (∃ res db' events,
       verifyOwnership envC "acme/widgets" (some "u1") dbFresh 5 "p1" =
         (Except.ok res, db', events) ∧
       res.success = true ∧ res.ownershipType = "organization owner") ∧
    Event.callGetOrgMembership ∉
      (verifyOwnership envWrite "acme/widgets" (some "u1") dbFresh 5 "p1").2.2 :=
  ⟨C3_org_membership_fallback.1 envC "acme/widgets" "u1" dbFresh 5 "p1"
     "acme" "widgets" alice acmeRepo "not a collaborator"
     { role := "admin", state := "active" }
     rfl rfl rfl (by decide) rfl rfl rfl rfl rfl (by decide),
   (C3_org_membership_fallback.2.2.2 envWrite "acme/widgets" "u1" dbFresh 5
     "p1" "acme" "widgets" alice acmeRepo "write"
     rfl rfl rfl (by decide) rfl rfl (by decide)).2⟩

/-- C4: when the repository owner's login equals the caller's login, the
authorization chain immediately yields is_owner = true with
ownershipType "repository owner", and the whole verification trace
contains neither a collaborator-permission nor an org-membership
call — the remaining checks are skipped. -/
theorem C4_direct_owner_skips_lookups (env : GhEnv) (identifier : String)
    (session : Option String) (db : DB) (now : Nat) (projectId : String)
    (ow rp : String) (u : GhUser) (r : RepoData)
    (hparse : parseRepoIdentifier identifier = Except.ok (ow, rp))
    (hu : env.currentUser = Except.ok u)
    (hr : env.repoResult = Except.ok r)
    (hlogin : r.owner.login = u.username) :
    ownershipDecision env u r = (true, "repository owner", []) ∧
    Event.callGetCollaboratorPermission ∉
      (verifyOwnership env identifier session db now projectId).2.2 ∧
    Event.callGetOrgMembership ∉
      (verifyOwnership env identifier session db now projectId).2.2 := by
  have hdec := ownershipDecision_direct env u r hlogin
  refine ⟨hdec, ?_, ?_⟩ <;>
  · cases hupd : (updateProjectWhereUnowned db.projects projectId session now).2 with
    | nil =>
      rw [verifyOwnership_conflict_eq env identifier db now projectId session
        ow rp u r _ _ hparse hu hr hdec hupd]
      simp
    | cons p rest =>
      cases session with
      | none =>
        rw [verifyOwnership_rows_none_eq env identifier db now projectId ow rp
          u r _ _ p rest hparse hu hr hdec hupd]
        simp
      | some uid =>
        rw [verifyOwnership_success_eq env identifier db now projectId uid ow
          rp u r _ _ p rest hparse hu hr hdec hupd]
        simp

/-- C4 witness: the claim theorem at the scenario-A fixture. -/
theorem C4_direct_owner_skips_lookups_witness :
    ownershipDecision envDirect alice aliceRepo = (true, "repository owner", []) ∧
    Event.callGetCollaboratorPermission ∉
      (verifyOwnership envDirect "alice/hello" (some "u1") dbFresh 5 "p1").2.2 ∧
    Event.callGetOrgMembership ∉
      (verifyOwnership envDirect "alice/hello" (some "u1") dbFresh 5 "p1").2.2 :=
  C4_direct_owner_skips_lookups envDirect "alice/hello" (some "u1") dbFresh 5
    "p1" "alice" "hello" alice aliceRepo rfl rfl rfl rfl

/-- C5 counterexample: a denied attempt persists a failing ClaimAttempt
whose verificationMethod is the literal "github_api", not
"provider_api" as the claim states. -/
theorem C5_counterexample :
    (verifyOwnership envWrite "acme/widgets" (some "u1") dbFresh 5 "p1").2.1.claims =
      [failRow "p1" "u1" alice acmeRepo] ∧
    (failRow "p1" "u1" alice acmeRepo).verificationMethod = "github_api" ∧
    (failRow "p1" "u1" alice acmeRepo).verificationMethod ≠ "provider_api" :=
  ⟨rfl, rfl, by decide⟩

/-- C5 (amended): a failing ClaimAttempt row is written exactly when the
attempt reaches the authorization decision and is denied: every denial
appends one row with success = false, verificationMethod "github_api",
details recording the resolved identity, the repository owner and its
type, and reason insufficient_permissions, and throws the Forbidden
error whose message names both the caller and the repository owner;
whereas parse, identity-resolution and repository-resolution failures
propagate immediately with the database untouched. -/
theorem C5_failure_recording :
    (∀ (env : GhEnv) (identifier uid : String) (db : DB) (now : Nat)
       (projectId ow rp : String) (u : GhUser) (r : RepoData) (ot : String)
       (calls : List Event),
       parseRepoIdentifier identifier = Except.ok (ow, rp) →
       env.currentUser = Except.ok u →
       env.repoResult = Except.ok r →
       ownershipDecision env u r = (false, ot, calls) →
       verifyOwnership env identifier (some uid) db now projectId =
         (Except.error (VError.forbidden (forbiddenMsg u r)),
          { db with claims := db.claims ++ [failRow projectId uid u r] },
          (Event.callGetCurrentUser :: Event.callGetRepo :: calls) ++
            [Event.dbInsertClaim (failRow projectId uid u r)])) ∧
    (∀ (projectId uid : String) (u : GhUser) (r : RepoData),
       (failRow projectId uid u r).success = false ∧
       (failRow projectId uid u r).verificationMethod = "github_api" ∧
       (failRow projectId uid u r).verifiedAs = u.username ∧
       (failRow projectId uid u r).repoOwner = r.owner.login ∧
       (failRow projectId uid u r).repoOwnerType = r.owner.type ∧
       (failRow projectId uid u r).reason = some "insufficient_permissions" ∧
       (failRow projectId uid u r).projectId = projectId ∧
       (failRow projectId uid u r).userId = uid) ∧
    (∀ (u : GhUser) (r : RepoData), ∃ s1 s2 s3 : String,
       forbiddenMsg u r = s1 ++ u.username ++ s2 ++ r.owner.login ++ s3) ∧
    (∀ (env : GhEnv) (identifier : String) (session : Option String)
       (db : DB) (now : Nat) (projectId : String) (e : VError),
       parseRepoIdentifier identifier = Except.error e →
       verifyOwnership env identifier session db now projectId =
         (Except.error e, db, [])) ∧
    (∀ (env : GhEnv) (identifier : String) (session : Option String)
       (db : DB) (now : Nat) (projectId ow rp : String) (e : String),
       parseRepoIdentifier identifier = Except.ok (ow, rp) →
       env.currentUser = Except.error e →
       verifyOwnership env identifier session db now projectId =
         (Except.error (VError.providerError e), db,
          [Event.callGetCurrentUser])) ∧
    (∀ (env : GhEnv) (identifier : String) (session : Option String)
       (db : DB) (now : Nat) (projectId ow rp : String) (e : String)
       (u : GhUser),
       parseRepoIdentifier identifier = Except.ok (ow, rp) →
       env.currentUser = Except.ok u →
       env.repoResult = Except.error e →
       verifyOwnership env identifier session db now projectId =
         (Except.error (VError.providerError e), db,
          [Event.callGetCurrentUser, Event.callGetRepo])) := by
  refine ⟨?_, ?_, ?_, ?_, ?_, ?_⟩
  · intro env identifier uid db now projectId ow rp u r ot calls hparse hu hr hdec
    exact verifyOwnership_denied_eq env identifier db now projectId uid ow rp
      u r ot calls hparse hu hr hdec
  · intro projectId uid u r
    exact ⟨rfl, rfl, rfl, rfl, rfl, rfl, rfl, rfl⟩
  · intro u r
    exact ⟨"You don't have the required permissions to claim this project. " ++
         "You must be either the repository owner or an organization owner. " ++
         "Current user: ", ", Repository owner: ", "", by
      simp [forbiddenMsg]⟩
  · intro env identifier session db now projectId e hparse
    exact verifyOwnership_parse_err env identifier db now projectId session e hparse
  · intro env identifier session db now projectId ow rp e hparse hu
    exact verifyOwnership_user_err env identifier db now projectId session ow
      rp e hparse hu
  · intro env identifier session db now projectId ow rp e u hparse hu hr
    exact verifyOwnership_repo_err env identifier db now projectId session ow
      rp e u hparse hu hr

/-- C5 witness: the denial branch of the amended theorem at the
scenario-D fixture. -/
theorem C5_failure_recording_witness :
    verifyOwnership envWrite "acme/widgets" (some "u1") dbFresh 5 "p1" =
      (Except.error (VError.forbidden (forbiddenMsg alice acmeRepo)),
       { dbFresh with claims := [failRow "p1" "u1" alice acmeRepo] },
       [Event.callGetCurrentUser, Event.callGetRepo,
        Event.callGetCollaboratorPermission,
        Event.dbInsertClaim (failRow "p1" "u1" alice acmeRepo)]) :=
  C5_failure_recording.1 envWrite "acme/widgets" "u1" dbFresh 5 "p1"
    "acme" "widgets" alice acmeRepo "" [Event.callGetCollaboratorPermission]
    rfl rfl rfl rfl

/-- C6: in every run of verifyOwnership that returns success, the event
trace is exactly some provider calls followed by the conditional
ownership update and then the success ClaimAttempt insert — the update
(which matched at least one row) strictly precedes the insert, so no
observable prefix of the run contains the success row without the
project's ownerId already assigned to the claiming session user. -/
theorem C6_update_precedes_success_record (env : GhEnv) (identifier : String)
    (session : Option String) (db : DB) (now : Nat) (projectId : String)
    (res : VResult) (db' : DB) (events : List Event)
    (h : verifyOwnership env identifier session db now projectId =
       (Except.ok res, db', events)) :
    ∃ calls k row uid,
      events = calls ++ [Event.dbUpdateOwner projectId session k,
        Event.dbInsertClaim row] ∧
      0 < k ∧ (∀ e ∈ calls, e.isProviderCall = true) ∧
      session = some uid ∧ row.success = true ∧ row.projectId = projectId ∧
      row.userId = uid ∧ res.project.ownerId = some uid := by
  unfold verifyOwnership at h
  split at h
  · simp at h
  · split at h
    · simp at h
    · split at h
      · simp at h
      · split at h
        · dsimp only at h
          split at h
          · simp at h
          · split at h
            · simp at h
            · simp at h
        · dsimp only at h
          split at h
          · simp at h
          · split at h
            · simp at h
            · simp only [Prod.mk.injEq, Except.ok.injEq] at h
              obtain ⟨hres, hdb, hev⟩ := h
              rename_i x3 ownerSeg repoSeg heqp x2 cu hequ x1 rd heqr sess uid
                hdec1 x0 p tail hequpd
              refine ⟨Event.callGetCurrentUser :: Event.callGetRepo ::
                  (ownershipDecision env cu rd).2.2,
                (updateProjectWhereUnowned db.projects projectId (some uid) now).2.length,
                successRow projectId uid cu rd (ownershipDecision env cu rd).2.1
                  ownerSeg repoSeg,
                uid, ?_, ?_, ?_, rfl, rfl, rfl, rfl, ?_⟩
              · rw [← hev]
                simp [List.append_assoc]
              · rw [hequpd]
                simp
              · intro e he
                simp only [List.mem_cons] at he
                rcases he with rfl | rfl | he
                · rfl
                · rfl
                · exact ownershipDecision_calls_are_calls env cu rd e he
              · rw [← hres]
                exact update_returned_ownerId db now projectId (some uid) p
                  (by rw [hequpd]; exact List.mem_cons_self p tail)

/-- C6 witness: the claim theorem at the concrete successful
scenario-B run. -/
theorem C6_update_precedes_success_record_witness :
    ∃ calls k row uid,
      [Event.callGetCurrentUser, Event.callGetRepo,
       Event.callGetCollaboratorPermission, Event.callGetOrgMembership,
       Event.dbUpdateOwner "p1" (some "u1") 1,
       Event.dbInsertClaim
         (successRow "p1" "u1" alice acmeRepo "repository admin" "acme" "widgets")] =
        calls ++ [Event.dbUpdateOwner "p1" (some "u1") k,
          Event.dbInsertClaim row] ∧
      0 < k ∧ (∀ e ∈ calls, e.isProviderCall = true) ∧
      (some "u1" : Option String) = some uid ∧ row.success = true ∧
      row.projectId = "p1" ∧ row.userId = uid ∧
      ({ success := true,
         project := { id := "p1", ownerId := some "u1", updatedAt := 5 },
         ownershipType := "repository admin",
         verifiedAs := "alice" } : VResult).project.ownerId = some uid :=
  C6_update_precedes_success_record envB "acme/widgets" (some "u1") dbFresh 5
    "p1"
    { success := true,
      project := { id := "p1", ownerId := some "u1", updatedAt := 5 },
      ownershipType := "repository admin", verifiedAs := "alice" }
    { projects := [{ id := "p1", ownerId := some "u1", updatedAt := 5 }],
      claims := [successRow "p1" "u1" alice acmeRepo "repository admin"
        "acme" "widgets"] }
    [Event.callGetCurrentUser, Event.callGetRepo,
     Event.callGetCollaboratorPermission, Event.callGetOrgMembership,
     Event.dbUpdateOwner "p1" (some "u1") 1,
     Event.dbInsertClaim
       (successRow "p1" "u1" alice acmeRepo "repository admin" "acme" "widgets")]
    rfl

/-- C7: with an absent session user id, verifyOwnership never returns
success, appends no ClaimAttempt row, and leaves every project's
ownerId unchanged (the conditional update can at most rewrite a null
ownerId to null): evaluating `ctx.session!.userId` raises, so the
operation fails on every path. -/
theorem C7_absent_session_fails (env : GhEnv) (identifier : String) (db : DB)
    (now : Nat) (projectId : String) :
    (∀ res : VResult,
       (verifyOwnership env identifier none db now projectId).1 ≠
         Except.ok res) ∧
    (verifyOwnership env identifier none db now projectId).2.1.claims =
      db.claims ∧
    (verifyOwnership env identifier none db now projectId).2.1.projects.map
        Project.ownerId = db.projects.map Project.ownerId := by
  rcases hp : parseRepoIdentifier identifier with e | ⟨ow, rp⟩
  · rw [verifyOwnership_parse_err env identifier db now projectId none e hp]
    exact ⟨fun res hres => by simp at hres, rfl, rfl⟩
  · rcases hu : env.currentUser with e | u
    · rw [verifyOwnership_user_err env identifier db now projectId none ow rp
        e hp hu]
      exact ⟨fun res hres => by simp at hres, rfl, rfl⟩
    · rcases hr : env.repoResult with e | r
      · rw [verifyOwnership_repo_err env identifier db now projectId none ow
          rp e u hp hu hr]
        exact ⟨fun res hres => by simp at hres, rfl, rfl⟩
      · rcases hd : ownershipDecision env u r with ⟨b, ot, calls⟩
        cases b with
        | false =>
          rw [verifyOwnership_denied_none_eq env identifier db now projectId
            ow rp u r ot calls hp hu hr hd]
          exact ⟨fun res hres => by simp at hres, rfl, rfl⟩
        | true =>
          cases hupd : (updateProjectWhereUnowned db.projects projectId none now).2 with
          | nil =>
            rw [verifyOwnership_conflict_eq env identifier db now projectId
              none ow rp u r ot calls hp hu hr hd hupd]
            exact ⟨fun res hres => by simp at hres, rfl,
              update_none_preserves_ownerIds db now projectId⟩
          | cons p rest =>
            rw [verifyOwnership_rows_none_eq env identifier db now projectId
              ow rp u r ot calls p rest hp hu hr hd hupd]
            exact ⟨fun res hres => by simp at hres, rfl,
              update_none_preserves_ownerIds db now projectId⟩

/-- C7 witness: the claim theorem at the scenario-B fixture with an
absent session. -/
theorem C7_absent_session_fails_witness :
    (verifyOwnership envB "acme/widgets" none dbFresh 5 "p1").2.1.claims =
        dbFresh.claims ∧
    (verifyOwnership envB "acme/widgets" none dbFresh 5 "p1").1 ≠
      Except.ok
        { success := true,
          project := { id := "p1", ownerId := none, updatedAt := 5 },
          ownershipType := "repository admin", verifiedAs := "alice" } :=
  ⟨(C7_absent_session_fails envB "acme/widgets" dbFresh 5 "p1").2.1,
   (C7_absent_session_fails envB "acme/widgets" dbFresh 5 "p1").1 _⟩

theorem fetchPRLoop_mem (stateFilter : String) (limit : Nat)
    (pages : List PRPage) (acc : List UserPullRequestData)
    (pr : UserPullRequestData) (h : pr ∈ fetchPRLoop stateFilter limit pages acc) :
    pr ∈ acc ∨ passesStateFilter stateFilter pr = true := by
  induction pages generalizing acc with
  | nil => exact Or.inl h
  | cons page rest ih =>
    simp only [fetchPRLoop] at h
    split at h
    · split at h
      · rcases List.mem_append.mp h with h1 | h2
        · exact Or.inl h1
        · exact Or.inr (List.of_mem_filter h2)
      · rcases ih _ h with h1 | h2
        · rcases List.mem_append.mp h1 with h1 | h2
          · exact Or.inl h1
          · exact Or.inr (List.of_mem_filter h2)
        · exact Or.inr h2
    · exact Or.inl h

/-- A GraphQL node reported with state MERGED but a null merge
timestamp. -/
def mergedNoTimePR : PRNode :=
  { id := "PR1", number := 1, title := "fix", state := "MERGED",
    isDraft := false, createdAt := "2024-01-01", updatedAt := "2024-01-02",
    closedAt := none, mergedAt := none,
    url := "https://github.com/acme/widgets/pull/1",
    headRefName := "fix", baseRefName := "main",
    repository :=
      { nameWithOwner := "acme/widgets",
        url := "https://github.com/acme/widgets", isPrivate := false,
        ownerLogin := "acme" } }

/-- One-page GraphQL response containing only `mergedNoTimePR`. -/
def onePageResp : GqlResp :=
  GqlResp.userPages [{ nodes := [mergedNoTimePR], hasNextPage := false }]

theorem passesStateFilter_merged (pr : UserPullRequestData)
    (h : passesStateFilter "merged" pr = true) :
    pr.state = "merged" ∨ pr.mergedAt.isSome = true := by
  unfold passesStateFilter at h
  rw [if_neg (by decide), if_neg (by decide), if_neg (by decide),
    if_pos rfl] at h
  simpa using h

theorem passesStateFilter_closed (pr : UserPullRequestData)
    (h : passesStateFilter "closed" pr = true) :
    pr.state = "closed" ∧ pr.mergedAt = none := by
  unfold passesStateFilter at h
  rw [if_neg (by decide), if_neg (by decide), if_pos rfl] at h
  simp only [Bool.and_eq_true, beq_iff_eq, Bool.not_eq_true'] at h
  refine ⟨h.1, ?_⟩
  cases hmm : pr.mergedAt with
  | none => rfl
  | some v =>
    rw [hmm] at h
    simp at h

/-- C9 counterexample: with state_filter "merged", a PR whose reported
state is MERGED but whose merge timestamp is null is returned anyway
(the filter is `state == "merged" || !!mergedAt`), so the result is
not restricted to PRs with a non-empty merge timestamp. -/
theorem C9_counterexample :
    getUserPullRequests onePageResp "alice" (some "merged") (some 50) =
      Except.ok [formatPR mergedNoTimePR] ∧
    (formatPR mergedNoTimePR).mergedAt = none :=
  ⟨by decide, rfl⟩

/-- C9 (amended): every successfully returned list is capped at the
effective limit (the requested limit, with 0 and absent defaulting to
100); under state_filter "merged" every returned PR has reported state
"merged" or a non-empty merge timestamp; under state_filter "closed"
every returned PR is closed and has no merge timestamp (merged PRs are
excluded). -/
theorem C9_state_filter_and_cap (resp : GqlResp) (username : String)
    (stateOpt : Option String) (limitOpt : Option Nat)
    (prs : List UserPullRequestData)
    (h : getUserPullRequests resp username stateOpt limitOpt = Except.ok prs) :
    prs.length ≤ resolveLimit limitOpt ∧
    (stateOpt = some "merged" → ∀ pr ∈ prs,
       pr.state = "merged" ∨ pr.mergedAt.isSome = true) ∧
    (stateOpt = some "closed" → ∀ pr ∈ prs,
       pr.state = "closed" ∧ pr.mergedAt = none) := by
  cases resp with
  | noUser => exact absurd h (by simp [getUserPullRequests])
  | userPages pages =>
    simp only [getUserPullRequests, Except.ok.injEq] at h
    subst h
    refine ⟨?_, ?_, ?_⟩
    · exact List.length_take_le (resolveLimit limitOpt) _
    · rintro rfl pr hpr
      have hmem := List.take_subset _ _ hpr
      rcases fetchPRLoop_mem _ _ pages [] pr hmem with h1 | h2
      · exact absurd h1 (List.not_mem_nil pr)
      · exact passesStateFilter_merged pr h2
    · rintro rfl pr hpr
      have hmem := List.take_subset _ _ hpr
      rcases fetchPRLoop_mem _ _ pages [] pr hmem with h1 | h2
      · exact absurd h1 (List.not_mem_nil pr)
      · exact passesStateFilter_closed pr h2

/-- C9 witness: the amended theorem at the concrete one-page response
with state_filter "merged" and limit 50. -/
theorem C9_state_filter_and_cap_witness :
    [formatPR mergedNoTimePR].length ≤ resolveLimit (some 50) ∧
    ((some "merged" : Option String) = some "merged" →
       ∀ pr ∈ [formatPR mergedNoTimePR],
         pr.state = "merged" ∨ pr.mergedAt.isSome = true) ∧
    ((some "merged" : Option String) = some "closed" →
       ∀ pr ∈ [formatPR mergedNoTimePR],
         pr.state = "closed" ∧ pr.mergedAt = none) :=
  C9_state_filter_and_cap onePageResp "alice" (some "merged") (some 50)
    [formatPR mergedNoTimePR] rfl

/-- C10: a limit of 0 is falsy in `options?.limit || 100`, so it is
treated exactly like an unspecified limit — the default of 100 applies
and a non-empty result can be returned (rather than an empty list);
likewise an absent state filter behaves as "all". -/
theorem C10_zero_limit_defaults :
    (∀ (resp : GqlResp) (username : String) (stateOpt : Option String),
       getUserPullRequests resp username stateOpt (some 0) =
         getUserPullRequests resp username stateOpt none) ∧
    (∀ (resp : GqlResp) (username : String) (limitOpt : Option Nat),
       getUserPullRequests resp username none limitOpt =
         getUserPullRequests resp username (some "all") limitOpt) ∧
    resolveLimit (some 0) = 100 ∧ resolveStateFilter none = "all" ∧
    getUserPullRequests onePageResp "alice" none (some 0) =
      Except.ok [formatPR mergedNoTimePR] :=
  ⟨fun _ _ _ => rfl, fun _ _ _ => rfl, rfl, rfl, by decide⟩

end GithubDriver
